import Mathlib

/-!
Shallow embedding of the Companies House officer-search reconciler
(`reconcile-individual-names-to-company-officer-names` module).

JavaScript values that may be `undefined` are modelled with `Option`;
the distinction between JS `undefined` and JS `null` in output cells is
modelled by `JsVal`.  Thrown JS exceptions are modelled with `Except String`.
-/

namespace Reconcile

/-- A JS output-cell value: `undefined`, `null`, or a string. -/
inductive JsVal where
  | jsUndefined
  | jsNull
  | str (s : String)
deriving DecidableEq, Repr

/-- Basic-auth pair: `{username, password}`. The username is the rotated
API key, which can be JS `undefined`. -/
structure Auth where
  username : Option String
  password : String
deriving DecidableEq, Repr

/-- How a JS template literal renders a string-or-`undefined` value. -/
def jsRender (o : Option String) : String := o.getD "undefined"

/-- Passthrough metadata `{individualName, page}` stamped on each query
and echoed onto its response. -/
structure Passthrough where
  individualName : String
  page : Nat
deriving DecidableEq, Repr

/-- Query params `{q, items_per_page, start_index?}`; `start_index` is only
present on follow-up page queries. -/
structure Params where
  q : String
  items_per_page : Nat
  start_index : Option Nat
deriving DecidableEq, Repr

/-- An outbound request descriptor, as built by `locate` / `paginate`. -/
structure Query where
  url : String
  auth : Auth
  params : Params
  passthrough : Passthrough
deriving DecidableEq, Repr

/-- `individual.date_of_birth`: each component may be absent. -/
structure DateOfBirth where
  year : Option Nat
  month : Option Nat
  day : Option Nat
deriving DecidableEq, Repr

/-- `individual.links`. -/
structure Links where
  self : Option String
deriving DecidableEq, Repr

/-- One candidate record (`individual`) from a search response. -/
structure Individual where
  title : Option String
  links : Option Links
  date_of_birth : Option DateOfBirth
  address_snippet : Option String
deriving DecidableEq, Repr

/-- Decoded response body: `{total_results, items}`. -/
structure Body where
  total_results : Nat
  items : List Individual
deriving DecidableEq, Repr

/-- A decoded response with the originating query context echoed on. -/
structure Response where
  status : Nat
  data : Body
  url : String
  auth : Auth
  passthrough : Passthrough
deriving DecidableEq, Repr

/-- An input row: a column-name-to-value mapping plus a line number. -/
structure Entry where
  data : List (String × String)
  line : Nat
deriving DecidableEq, Repr

/-- `entry.data[field]` — JS property lookup, `undefined` when absent. -/
def Entry.get (e : Entry) (field : String) : Option String :=
  e.data.lookup field

/-- Splits a character list at every occurrence of `sep`, keeping empty
segments, as JS `String.prototype.split` does with a one-character
separator. -/
def splitChar (sep : Char) : List Char → List (List Char)
  | [] => [[]]
  | c :: cs =>
    let r := splitChar sep cs
    if c = sep then [] :: r
    else
      match r with
      | h :: t => (c :: h) :: t
      | [] => [[c]]

/-- JS `s.split(sep)` for a one-character separator; always non-empty. -/
def jsSplit (s : String) (sep : Char) : List String :=
  (splitChar sep s.toList).map String.mk

/-- JS `s.toLowerCase()` on ASCII text. -/
def jsToLower (s : String) : String := String.mk (s.toList.map Char.toLower)

/-- JS `s.trim()`: strip leading and trailing whitespace. -/
def jsTrim (s : String) : String :=
  String.mk
    (((s.toList.dropWhile Char.isWhitespace).reverse.dropWhile
      Char.isWhitespace).reverse)

/-- Whether `pre` is a prefix of the character list. -/
def listIsPrefix : List Char → List Char → Bool
  | [], _ => true
  | _ :: _, [] => false
  | a :: as, b :: bs => if a = b then listIsPrefix as bs else false

/-- JS `s.startsWith(pre)`. -/
def jsStartsWith (s pre : String) : Bool := listIsPrefix pre.toList s.toList

/-- A diagnostic event passed to `alert`. -/
structure Alert where
  message : String
  importance : String
deriving DecidableEq, Repr

/-- The module's configuration parameters. `apiKey` is modelled separately
(see `ApiKeyParam`); the two match toggles are JS-truthy flags. -/
structure Parameters where
  individualNameField : String
  dateOfBirthField : Option String
  nonMiddleNameMatch : Bool
  preciseMatch : Bool
deriving DecidableEq, Repr

/-- The `parameters.apiKey` value: a single string key, an array of keys,
or absent. -/
inductive ApiKeyParam where
  | str (s : String)
  | arr (l : List String)
  | absent
deriving DecidableEq, Repr

/-- `[parameters.apiKey].flat()` — the credential list. An element is
`none` when the corresponding JS element is `undefined`. -/
def apiKeysOf : ApiKeyParam → List (Option String)
  | .str s => [some s]
  | .arr l => l.map some
  | .absent => [none]

/-- One call of the rotated-key closure: reads `apiKeys[next]` (JS gives
`undefined` out of bounds, hence `Option`) and advances
`next = (next + 1) % apiKeys.length`. -/
def apiKeysRotated (apiKeys : List α) (next : Nat) : Option α × Nat :=
  (apiKeys.get? next, (next + 1) % apiKeys.length)

/-- Rotator cursor after `i` sequential calls starting from 0. -/
def rotStateAfter (apiKeys : List α) : Nat → Nat
  | 0 => 0
  | i + 1 => (apiKeysRotated apiKeys (rotStateAfter apiKeys i)).2

/-- Value returned by the `(i+1)`-th sequential call of the rotator. -/
def rotCall (apiKeys : List α) (i : Nat) : Option α :=
  (apiKeysRotated apiKeys (rotStateAfter apiKeys i)).1

/-- Event passed to the `messages` classifier: the query (`config`) and
the raw response status. -/
structure MessagesEvent where
  config : Query
  response_status : Nat
deriving DecidableEq, Repr

/-- The `messages` response classifier handed to the requestor:
throws (models JS `throw`) on 429 and 401, returns a diagnostic string for
other statuses at least 400, and returns `undefined` (no failure) below 400. -/
def messages (e : MessagesEvent) : Except String (Option String) :=
  let individual := e.config.passthrough.individualName
  let page := e.config.passthrough.page
  if e.response_status = 429 then
    .error "The rate limit has been reached"
  else if e.response_status = 401 then
    .error ("API key " ++ jsRender e.config.auth.username ++ " is invalid")
  else if e.response_status ≥ 400 then
    .ok (some ("Received code " ++ toString e.response_status ++
      " for individual " ++ individual ++ " on page " ++ toString page))
  else
    .ok none

/-- `locate`: builds the first query, or alerts and returns `undefined` when
the individual-name cell is JS-falsy (absent or empty). Threads the rotator
cursor. Returns (query?, alerts emitted, new cursor). -/
def locate (p : Parameters) (apiKeys : List (Option String)) (entry : Entry)
    (rot : Nat) : Option Query × List Alert × Nat :=
  match entry.get p.individualNameField with
  | none =>
    (none, [{ message := "No individual name found on line " ++ toString entry.line,
              importance := "error" }], rot)
  | some individualName =>
    if individualName = "" then
      (none, [{ message := "No individual name found on line " ++ toString entry.line,
                importance := "error" }], rot)
    else
      let (key, rot') := apiKeysRotated apiKeys rot
      (some {
        url := "https://api.company-information.service.gov.uk/search/officers",
        auth := { username := key.getD none, password := "" },
        params := { q := jsTrim individualName, items_per_page := 100, start_index := none },
        passthrough := { individualName := individualName, page := 1 } }, [], rot')

/-- `Math.ceil(n / 100)` for natural `n`. -/
def jsCeilDiv100 (n : Nat) : Nat := (n + 99) / 100

/-- The follow-up page query built inside `paginate` for page index `page`
(0-based; the query asks for page `page + 1`). -/
def mkPageQuery (response : Response) (page : Nat) (key : Option (Option String)) :
    Query :=
  { url := response.url,
    auth := { username := key.getD none, password := "" },
    params := { q := jsTrim response.passthrough.individualName,
                items_per_page := 100,
                start_index := some (page * 100) },
    passthrough := { individualName := response.passthrough.individualName,
                     page := page + 1 } }

/-- Issues the follow-up requests for the given page indices in order,
threading the rotator cursor (one rotated key per page). -/
def paginatePages (apiKeys : List (Option String))
    (request : Option Query → Option Response) (response : Response) :
    List Nat → Nat → List (Option Response) × Nat
  | [], rot => ([], rot)
  | page :: rest, rot =>
    let (key, rot') := apiKeysRotated apiKeys rot
    let q := mkPageQuery response page key
    let (rs, rot'') := paginatePages apiKeys request response rest rot'
    (request (some q) :: rs, rot'')

/-- `paginate`: `undefined` in, `undefined` out; otherwise, when
`total_results > 100`, requests pages `range(pageTotal).slice(1, 10)` and
returns the original response followed by the follow-up responses; else
returns the single-element list. -/
def paginate (apiKeys : List (Option String))
    (request : Option Query → Option Response)
    (response? : Option Response) (rot : Nat) :
    Option (List (Option Response)) × Nat :=
  match response? with
  | none => (none, rot)
  | some response =>
    if response.data.total_results > 100 then
      let pageTotal := jsCeilDiv100 response.data.total_results
      let pageNumbers := ((List.range pageTotal).drop 1).take 9
      let (pageResponses, rot') :=
        paginatePages apiKeys request response pageNumbers rot
      (some (some response :: pageResponses), rot')
    else
      (some [some response], rot)

/-- JS truthiness of a number-or-`undefined`: `0` and `undefined` are falsy. -/
def truthyNat : Option Nat → Option Nat
  | some 0 => none
  | o => o

/-- The birth-date cell used by the date-of-birth filter: `none` when the
configured column is absent/blank or the Entry's value there is absent/blank
(all JS-falsy cases of `!parameters.dateOfBirthField || !entry.data[...]`). -/
def dobValue (p : Parameters) (entry : Entry) : Option String :=
  match p.dateOfBirthField with
  | none => none
  | some f =>
    if f = "" then none
    else
      match entry.get f with
      | none => none
      | some v => if v = "" then none else some v

/-- `month.toString().padStart(2, '0')`. -/
def padStart2 (s : String) : String :=
  if s.length ≥ 2 then s else String.mk (List.replicate (2 - s.length) '0') ++ s

/-- The `byDateOfBirth` candidate filter. -/
def byDateOfBirth (p : Parameters) (entry : Entry) (individual : Individual) :
    Bool :=
  match dobValue p entry with
  | none => true
  | some v =>
    match truthyNat (individual.date_of_birth.bind DateOfBirth.year),
          truthyNat (individual.date_of_birth.bind DateOfBirth.month) with
    | some year, some month =>
      (toString year == v.take 4) && (padStart2 (toString month) == (v.drop 5).take 2)
    | _, _ => false

/-- The honorific alternatives of the regex, in alternation order. -/
def honorifics : List String := ["mr", "ms", "mrs", "miss", "dr", "sir"]

/-- `.replace(/^(mr|ms|mrs|miss|dr|sir)\.? /, '')`: drop one leading
honorific, optionally followed by a period, then a space. -/
def stripHonorific (s : String) : String :=
  match honorifics.findSome? (fun t =>
    if jsStartsWith s (t ++ ". ") then some (s.drop (t.length + 2))
    else if jsStartsWith s (t ++ " ") then some (s.drop (t.length + 1))
    else none) with
  | some r => r
  | none => s

/-- `.replace(/[^a-z ]/g, '')`: keep only lowercase letters and spaces. -/
def jsStripNonAlpha (s : String) : String :=
  String.mk (s.toList.filter (fun c => decide (('a' ≤ c ∧ c ≤ 'z') ∨ c = ' ')))

/-- The `normalised` name helper; `undefined` propagates through `?.`. -/
def normalised (name : Option String) : Option String :=
  name.map (fun n => stripHonorific (jsStripNonAlpha (jsToLower n)))

/-- The `byPreciseMatch` candidate filter. -/
def byPreciseMatch (p : Parameters) (entry : Entry) (individual : Individual) :
    Bool :=
  if !p.preciseMatch then true
  else normalised individual.title == normalised (entry.get p.individualNameField)

/-- The TypeError raised when `.split` is read off `undefined`. -/
def tyErrSplit : String :=
  "TypeError: Cannot read properties of undefined (reading split)"

/-- The TypeError raised when `.self` is read off `undefined`. -/
def tyErrSelf : String :=
  "TypeError: Cannot read properties of undefined (reading self)"

/-- The `byNonMiddleNameMatch` candidate filter. Calling `.split` on an
`undefined` normalised name throws; the result name is read first. -/
def byNonMiddleNameMatch (p : Parameters) (entry : Entry)
    (individual : Individual) : Except String Bool :=
  if !p.nonMiddleNameMatch then .ok true
  else
    let entryIndividualName := normalised (entry.get p.individualNameField)
    let resultIndividualName := normalised individual.title
    match resultIndividualName with
    | none => .error tyErrSplit
    | some res =>
      match entryIndividualName with
      | none => .error tyErrSplit
      | some en =>
        .ok (((jsSplit res ' ').headD "" == (jsSplit en ' ').headD "")
          && ((jsSplit res ' ').getLastD "" == (jsSplit en ' ').getLastD ""))

/-- `array[i]` on a JS string array: `undefined` out of bounds. -/
def jsIndexStr (l : List String) (i : Nat) : JsVal :=
  match l.get? i with
  | some s => .str s
  | none => .jsUndefined

/-- A string-or-`undefined` JS value as an output cell. -/
def jsOfOpt : Option String → JsVal
  | some s => .str s
  | none => .jsUndefined

/-- One output row: the object literal built in `parse`, as an ordered
key-value list. -/
abbrev OutputRow := List (String × JsVal)

/-- `[year, month, day].filter(x => x).join('-') || null`. -/
def officerDateOfBirthVal (individual : Individual) : JsVal :=
  let comps := ([individual.date_of_birth.bind DateOfBirth.year,
                 individual.date_of_birth.bind DateOfBirth.month,
                 individual.date_of_birth.bind DateOfBirth.day].filterMap id).filter
                (fun n => n != 0)
  let joined := String.intercalate "-" (comps.map toString)
  if joined = "" then .jsNull else .str joined

/-- The map from a surviving candidate to its output row. Reading
`links.self` off a candidate with no `links` throws, as does `.split` on a
missing `self`. -/
def mapIndividual (individual : Individual) : Except String OutputRow :=
  match individual.links with
  | none => .error tyErrSelf
  | some links =>
    match links.self with
    | none => .error tyErrSplit
    | some self =>
      .ok [("officerID", jsIndexStr (jsSplit self '/') 2),
           ("officerName", jsOfOpt individual.title),
           ("officerDateOfBirth", officerDateOfBirthVal individual),
           ("officerAddress", jsOfOpt individual.address_snippet)]

/-- `Array.filter` with a predicate that can throw: the first exception,
scanning left to right, propagates. -/
def filterE (p : α → Except ε Bool) : List α → Except ε (List α)
  | [] => .ok []
  | x :: xs =>
    match p x with
    | .error e => .error e
    | .ok b =>
      match filterE p xs with
      | .error e => .error e
      | .ok rest => .ok (if b then x :: rest else rest)

/-- `Array.map` with a callback that can throw: the first exception,
scanning left to right, propagates. -/
def mapE (f : α → Except ε β) : List α → Except ε (List β)
  | [] => .ok []
  | x :: xs =>
    match f x with
    | .error e => .error e
    | .ok y =>
      match mapE f xs with
      | .error e => .error e
      | .ok ys => .ok (y :: ys)

/-- `parse`: `undefined` in, `undefined` out; otherwise the filtered,
mapped candidate rows (or a thrown TypeError). -/
def parse (p : Parameters) (response? : Option Response) (entry : Entry) :
    Except String (Option (List OutputRow)) :=
  match response? with
  | none => .ok none
  | some response =>
    match filterE (byNonMiddleNameMatch p entry)
        ((response.data.items.filter (byDateOfBirth p entry)).filter
          (byPreciseMatch p entry)) with
    | .error e => .error e
    | .ok filtered =>
      match mapE mapIndividual filtered with
      | .error e => .error e
      | .ok rows => .ok (some rows)

/-- `run`: locate, request, paginate, then `flatMap` of `parse` over the
page responses. `flatMap` keeps a non-array (`undefined`, from `parse` of an
absent page response) as a bare element, modelled by `none` entries. -/
def run (p : Parameters) (apiKeys : List (Option String))
    (request : Option Query → Option Response) (entry : Entry) (rot : Nat) :
    List Alert × Except String (Option (List (Option OutputRow))) × Nat :=
  let (dataLocated, alerts, rot1) := locate p apiKeys entry rot
  let dataLocatedRequested := request dataLocated
  let (dataLocatedPaginated, rot2) :=
    paginate apiKeys request dataLocatedRequested rot1
  match dataLocatedPaginated with
  | none => (alerts, .ok none, rot2)
  | some responses =>
    match mapE (fun r => parse p r entry) responses with
    | .error e => (alerts, .error e, rot2)
    | .ok parsed =>
      (alerts,
       .ok (some (parsed.flatMap (fun item =>
         match item with
         | none => [none]
         | some rows => rows.map some))),
       rot2)

/-- The module's static self-description. -/
structure Details where
  parameterNames : List String
  columns : List String
deriving DecidableEq, Repr

/-- The `details` declaration of the module. -/
def details : Details :=
  { parameterNames := ["apiKey", "individualNameField", "dateOfBirthField",
                       "nonMiddleNameMatch", "preciseMatch"],
    columns := ["officerID", "officerName", "officerDateOfBirth",
                "officerAddress"] }

/-- Modelled from the spec: the requestor (request executor) is injected
into `initialise` by the surrounding framework, whose code is not part of
the reconciler module. Per the spec, a successful call attaches the decoded
body as `data` and echoes the originating query's `url`, `auth` and
`passthrough` onto the Response. This stub always succeeds with a fixed
body, and maps an `undefined` query to an `undefined` response. -/
def stubRequest (b : Body) : Option Query → Option Response :=
  fun q? => q?.map (fun q =>
    { status := 200, data := b, url := q.url, auth := q.auth,
      passthrough := q.passthrough })

/-- Configuration with only the individual-name column set (both match
toggles off, no birth-date column). -/
def plainParams : Parameters :=
  { individualNameField := "individualName", dateOfBirthField := none,
    nonMiddleNameMatch := false, preciseMatch := false }

/-- Configuration that also names a birth-date column. -/
def dobParams : Parameters :=
  { individualNameField := "name", dateOfBirthField := some "dob",
    nonMiddleNameMatch := false, preciseMatch := false }

/-- An Entry with a non-blank birth-date cell. -/
def dobEntry : Entry :=
  { data := [("dob", "1980-05-01"), ("name", "John Smith")], line := 1 }

/-- A candidate with no birth-date data at all. -/
def candNoDob : Individual :=
  { title := some "John Smith", links := some { self := some "/officers/abc123" },
    date_of_birth := none, address_snippet := some "1 Road" }

/-- The Entry of the end-to-end example: `{individualName: "John Smith", line: 3}`. -/
def johnEntry : Entry := { data := [("individualName", "John Smith")], line := 3 }

/-- The single stub candidate of the end-to-end example. -/
def johnCand : Individual :=
  { title := some "John Smith", links := some { self := some "/officers/abc123" },
    date_of_birth := some { year := some 1980, month := some 5, day := none },
    address_snippet := some "1 Road" }

/-- The stub response body of the end-to-end example. -/
def johnBody : Body := { total_results := 1, items := [johnCand] }

/-- The first-page response of the end-to-end example. -/
def johnResp : Response :=
  { status := 200, data := johnBody, url := "u",
    auth := { username := some "k", password := "" },
    passthrough := { individualName := "John Smith", page := 1 } }

/-- The expected output row of the end-to-end example. -/
def johnRow : OutputRow :=
  [("officerID", .str "abc123"), ("officerName", .str "John Smith"),
   ("officerDateOfBirth", .str "1980-5"), ("officerAddress", .str "1 Road")]

/-- An Entry whose individual-name cell is blank. -/
def blankEntry : Entry := { data := [("individualName", "")], line := 7 }

/-- An Entry naming `jane obrien`. -/
def janeEntry : Entry := { data := [("individualName", "jane obrien")], line := 1 }

/-- A candidate titled `Dr. Jane O\x27Brien`. -/
def drJaneCand : Individual :=
  { title := some "Dr. Jane O\x27Brien", links := none,
    date_of_birth := none, address_snippet := none }

/-- An Entry naming `Jane O\x27Brien`. -/
def janeOBrienEntry : Entry :=
  { data := [("individualName", "Jane O\x27Brien")], line := 1 }

/-- A candidate titled `Jane Marie O\x27Brien`. -/
def janeMarieCand : Individual :=
  { title := some "Jane Marie O\x27Brien", links := none,
    date_of_birth := none, address_snippet := none }

/-- `plainParams` with the precise-match toggle on. -/
def preciseParams : Parameters := { plainParams with preciseMatch := true }

/-- `plainParams` with the first/last-name-only toggle on. -/
def nonMiddleParams : Parameters := { plainParams with nonMiddleNameMatch := true }

/-- A candidate with no display name (`title` absent). -/
def noTitleCand : Individual :=
  { title := none, links := some { self := some "/officers/x" },
    date_of_birth := none, address_snippet := none }

/-- A response whose only candidate has no display name. -/
def noTitleResp : Response :=
  { status := 200, data := { total_results := 1, items := [noTitleCand] },
    url := "u", auth := { username := some "k", password := "" },
    passthrough := { individualName := "John Smith", page := 1 } }

/-- A candidate with a name and identifier but no birth date and no
address snippet. -/
def noAddrCand : Individual :=
  { title := some "X Y", links := some { self := some "/officers/ab" },
    date_of_birth := none, address_snippet := none }

/-- A response whose only candidate is `noAddrCand`. -/
def noAddrResp : Response :=
  { status := 200, data := { total_results := 1, items := [noAddrCand] },
    url := "u", auth := { username := some "k", password := "" },
    passthrough := { individualName := "X Y", page := 1 } }

/-- A first response reporting 250 total results. -/
def resp250 : Response :=
  { status := 200, data := { total_results := 250, items := [] },
    url := "u", auth := { username := some "k", password := "" },
    passthrough := { individualName := "Jo", page := 1 } }

/-- A concrete page-2 query for the classification witness. -/
def joQuery : Query :=
  { url := "u",
    auth := { username := some "k", password := "" },
    params := { q := "Jo", items_per_page := 100, start_index := some 100 },
    passthrough := { individualName := "Jo", page := 2 } }

theorem rotStateAfter_eq_mod (keys : List α) (i : Nat) :
    rotStateAfter keys i = i % keys.length := by
  induction i with
  | zero => simp [rotStateAfter]
  | succ i ih =>
    show (apiKeysRotated keys (rotStateAfter keys i)).2 = (i + 1) % keys.length
    rw [ih]
    show (i % keys.length + 1) % keys.length = (i + 1) % keys.length
    exact (Nat.mod_modEq i keys.length).add_right 1

theorem rotCall_eq (keys : List α) (i : Nat) :
    rotCall keys i = keys.get? (i % keys.length) := by
  show (apiKeysRotated keys (rotStateAfter keys i)).1 = keys.get? (i % keys.length)
  rw [rotStateAfter_eq_mod keys i]
  rfl

theorem rotCall_isSome (keys : List α) (hk : keys ≠ []) (i : Nat) :
    (rotCall keys i).isSome = true := by
  rw [rotCall_eq keys i,
    List.get?_eq_get (Nat.mod_lt i (List.length_pos.mpr hk))]
  rfl

/-- C6: for every non-empty credential list, sequential calls of the
rotated-key closure return credentials in strict round-robin order (the
`i`-th call returns the key at index `i mod length`) and always succeed;
with keys `A, B, C`, seven calls return `A, B, C, A, B, C, A`, and with a
single credential every call returns it. -/
theorem apiKeysRotated_roundRobin :
    (∀ (α : Type) (keys : List α), keys ≠ [] → ∀ i : Nat,
      rotCall keys i = keys.get? (i % keys.length) ∧
      (rotCall keys i).isSome = true) ∧
    ((List.range 7).map (rotCall ["A", "B", "C"]) =
      [some "A", some "B", some "C", some "A", some "B", some "C", some "A"]) ∧
    (∀ (α : Type) (k : α) (i : Nat), rotCall [k] i = some k) := by
  refine ⟨fun α keys hk i => ⟨rotCall_eq keys i, rotCall_isSome keys hk i⟩,
    by decide, fun α k i => ?_⟩
  rw [rotCall_eq [k] i]
  simp [Nat.mod_one]

/-- Witness for C6 at a concrete two-key list and call index. -/
theorem apiKeysRotated_roundRobin_witness :
    rotCall (["X", "Y"] : List String) 3 =
      (["X", "Y"] : List String).get? (3 % 2) :=
  (apiKeysRotated_roundRobin.1 String ["X", "Y"] (by decide) 3).1

/-- C10 counterexample: an empty-array `apiKey` makes
`[parameters.apiKey].flat()` the empty list, so the credential list does
not always have at least one element. -/
theorem apiKeysOf_empty_counterexample :
    apiKeysOf (ApiKeyParam.arr []) = [] ∧
    (apiKeysOf (ApiKeyParam.arr [])).length = 0 :=
  ⟨rfl, rfl⟩

/-- C10 (amended): for every `apiKey` other than an empty array — a scalar
key, an absent key, or a non-empty array of keys — the credential list is
non-empty, the rotator cursor always stays strictly below the list length
(no modulo by zero is ever taken on these inputs), and every call of the
rotator succeeds with an in-bounds access. -/
theorem apiKeysOf_nonempty_amended (k : ApiKeyParam)
    (hk : k ≠ ApiKeyParam.arr []) :
    apiKeysOf k ≠ [] ∧
    ∀ i : Nat, rotStateAfter (apiKeysOf k) i < (apiKeysOf k).length ∧
      (rotCall (apiKeysOf k) i).isSome = true := by
  have hne : apiKeysOf k ≠ [] := by
    cases k with
    | str s => simp [apiKeysOf]
    | absent => simp [apiKeysOf]
    | arr l =>
      cases l with
      | nil => exact absurd rfl hk
      | cons a as => simp [apiKeysOf]
  refine ⟨hne, fun i => ⟨?_, rotCall_isSome _ hne i⟩⟩
  rw [rotStateAfter_eq_mod _ i]
  exact Nat.mod_lt i (List.length_pos.mpr hne)

/-- Witness for C10 (amended) at the absent-key configuration. -/
theorem apiKeysOf_nonempty_amended_witness :
    apiKeysOf ApiKeyParam.absent ≠ [] ∧
    ∀ i : Nat, rotStateAfter (apiKeysOf ApiKeyParam.absent) i <
        (apiKeysOf ApiKeyParam.absent).length ∧
      (rotCall (apiKeysOf ApiKeyParam.absent) i).isSome = true :=
  apiKeysOf_nonempty_amended ApiKeyParam.absent (by decide)

theorem ratelimit_ne_invalidKey (u : String) :
    "The rate limit has been reached" ≠ "API key " ++ u ++ " is invalid" := by
  intro h
  have h4 : ("The rate limit has been reached").data.take 4 =
      ("API key " ++ u ++ " is invalid").data.take 4 := by rw [h]
  have hL : ("The rate limit has been reached").data.take 4 =
      ['T', 'h', 'e', ' '] := rfl
  have hR : ("API key " ++ u ++ " is invalid").data.take 4 =
      ['A', 'P', 'I', ' '] := rfl
  rw [hL, hR] at h4
  exact absurd h4 (by decide)

/-- C5: the classifier raises a rate-limit error on HTTP 429, raises an
invalid-credential error naming the auth username on HTTP 401, returns a
non-fatal diagnostic naming the individual and the page for any other
status at least 400, and reports no failure below 400; the two fatal
messages are distinct. -/
theorem messages_classification (e : MessagesEvent) :
    (e.response_status = 429 →
      messages e = .error "The rate limit has been reached") ∧
    (e.response_status = 401 →
      messages e = .error ("API key " ++ jsRender e.config.auth.username ++
        " is invalid")) ∧
    (e.response_status ≥ 400 → e.response_status ≠ 429 →
      e.response_status ≠ 401 →
      messages e = .ok (some ("Received code " ++ toString e.response_status ++
        " for individual " ++ e.config.passthrough.individualName ++
        " on page " ++ toString e.config.passthrough.page))) ∧
    (e.response_status < 400 → messages e = .ok none) ∧
    "The rate limit has been reached" ≠
      "API key " ++ jsRender e.config.auth.username ++ " is invalid" := by
  refine ⟨?_, ?_, ?_, ?_, ratelimit_ne_invalidKey _⟩
  · intro h; simp [messages, h]
  · intro h; simp [messages, h]
  · intro h400 h429 h401
    simp only [messages]
    rw [if_neg h429, if_neg h401, if_pos h400]
  · intro h
    have h429 : e.response_status ≠ 429 := by omega
    have h401 : e.response_status ≠ 401 := by omega
    have h400 : ¬ (e.response_status ≥ 400) := by omega
    simp only [messages]
    rw [if_neg h429, if_neg h401, if_neg h400]

/-- Witness for C5 at status 500 with concrete passthrough context. -/
theorem messages_classification_witness :
    messages { config := joQuery, response_status := 500 } =
      .ok (some ("Received code " ++ toString (500 : Nat) ++
        " for individual " ++ "Jo" ++ " on page " ++ toString (2 : Nat))) :=
  (messages_classification _).2.2.1 (by decide) (by decide) (by decide)

/-- C7: normalisation maps the honorific-and-punctuation variant and the
plain lowercase variant of the same name to one string; with those inputs
the exact-name filter accepts the pair; the first/last-name filter accepts
a name with an extra middle name; and each filter passes every candidate
unconditionally when its toggle is off. -/
theorem normalised_matching :
    normalised (some "Dr. Jane O\x27Brien") = normalised (some "jane obrien") ∧
    byPreciseMatch preciseParams janeEntry drJaneCand = true ∧
    byNonMiddleNameMatch nonMiddleParams janeOBrienEntry janeMarieCand =
      .ok true ∧
    (∀ (p : Parameters) (entry : Entry) (individual : Individual),
      p.preciseMatch = false → byPreciseMatch p entry individual = true) ∧
    (∀ (p : Parameters) (entry : Entry) (individual : Individual),
      p.nonMiddleNameMatch = false →
        byNonMiddleNameMatch p entry individual = .ok true) := by
  refine ⟨rfl, rfl, rfl, fun p entry individual h => ?_,
    fun p entry individual h => ?_⟩
  · simp [byPreciseMatch, h]
  · simp [byNonMiddleNameMatch, h]

/-- Witness for C7 with the toggles off on a concrete candidate. -/
theorem normalised_matching_witness :
    byPreciseMatch plainParams johnEntry johnCand = true :=
  normalised_matching.2.2.2.1 plainParams johnEntry johnCand rfl

/-- C1 counterexample: with a configured birth-date column and a non-blank
Entry value there, a candidate with no birth-date data fails the
date-of-birth filter — it does not pass as the claim states. -/
theorem byDateOfBirth_ambiguous_counterexample :
    dobValue dobParams dobEntry = some "1980-05-01" ∧
    candNoDob.date_of_birth = none ∧
    byDateOfBirth dobParams dobEntry candNoDob = false :=
  ⟨rfl, rfl, rfl⟩

/-- C1 (amended): when the configured birth-date column is absent or the
Entry value there is blank, every candidate passes; otherwise a candidate
missing its own (truthy) birth year or month fails the filter, and a
candidate with both passes iff its year string equals the first four
characters of the value and its zero-padded month string equals characters
five and six (the ISO month). -/
theorem byDateOfBirth_amended (p : Parameters) (entry : Entry)
    (individual : Individual) :
    (dobValue p entry = none → byDateOfBirth p entry individual = true) ∧
    (∀ v, dobValue p entry = some v →
      ((truthyNat (individual.date_of_birth.bind DateOfBirth.year) = none ∨
        truthyNat (individual.date_of_birth.bind DateOfBirth.month) = none) →
        byDateOfBirth p entry individual = false) ∧
      (∀ y m,
        truthyNat (individual.date_of_birth.bind DateOfBirth.year) = some y →
        truthyNat (individual.date_of_birth.bind DateOfBirth.month) = some m →
        (byDateOfBirth p entry individual = true ↔
          toString y = v.take 4 ∧
          padStart2 (toString m) = (v.drop 5).take 2))) := by
  refine ⟨fun h => by simp [byDateOfBirth, h], fun v hv => ⟨?_, ?_⟩⟩
  · rintro (hy | hm)
    · simp [byDateOfBirth, hv, hy]
    · cases hty : truthyNat (individual.date_of_birth.bind DateOfBirth.year) <;>
        simp [byDateOfBirth, hv, hty, hm]
  · intro y m hy hm
    simp [byDateOfBirth, hv, hy, hm, Bool.and_eq_true, beq_iff_eq]

/-- Witness for C1 (amended): the matching candidate of the end-to-end
example against the ISO value 1980-05-01. -/
theorem byDateOfBirth_amended_witness :
    byDateOfBirth dobParams dobEntry johnCand = true ↔
      toString 1980 = ("1980-05-01" : String).take 4 ∧
      padStart2 (toString 5) = (("1980-05-01" : String).drop 5).take 2 :=
  ((byDateOfBirth_amended dobParams dobEntry johnCand).2 "1980-05-01"
    rfl).2 1980 5 rfl rfl

/-- C9: with the first/last-name-only toggle set, `parse` throws a
TypeError when a candidate has no display name, instead of filtering it
out; the exact-name filter by contrast silently rejects such a candidate. -/
theorem parse_missing_title_throws :
    parse nonMiddleParams (some noTitleResp) johnEntry = .error tyErrSplit ∧
    byPreciseMatch preciseParams johnEntry noTitleCand = false :=
  ⟨rfl, rfl⟩

/-- C8: the end-to-end run over the stub body yields exactly the one
expected output row and no diagnostics. -/
theorem run_endToEnd :
    run plainParams [some "k"] (stubRequest johnBody) johnEntry 0 =
      ([], .ok (some [some johnRow]), 0) := rfl

theorem mapE_ok_mem {α β ε : Type} (f : α → Except ε β) :
    ∀ (l : List α) (ys : List β), mapE f l = .ok ys →
      ∀ y ∈ ys, ∃ x, f x = .ok y := by
  intro l
  induction l with
  | nil =>
    intro ys h y hy
    rw [mapE] at h
    injection h with h
    subst h
    cases hy
  | cons a as ih =>
    intro ys h y hy
    rw [mapE] at h
    cases hfa : f a with
    | error err => rw [hfa] at h; exact Except.noConfusion h
    | ok y0 =>
      rw [hfa] at h
      cases hrest : mapE f as with
      | error err => rw [hrest] at h; exact Except.noConfusion h
      | ok ys0 =>
        rw [hrest] at h
        injection h with h
        subst h
        cases hy with
        | head => exact ⟨a, hfa⟩
        | tail _ hmem => exact ih ys0 hrest y hmem

theorem mapIndividual_row (individual : Individual) (row : OutputRow)
    (h : mapIndividual individual = .ok row) :
    row.map Prod.fst = details.columns ∧
    (row.lookup "officerDateOfBirth" = some JsVal.jsNull ∨
      ∃ s, row.lookup "officerDateOfBirth" = some (JsVal.str s)) := by
  rw [mapIndividual] at h
  cases hl : individual.links with
  | none => rw [hl] at h; exact Except.noConfusion h
  | some links =>
    simp only [hl] at h
    cases hs : links.self with
    | none => simp only [hs] at h; exact Except.noConfusion h
    | some self =>
      simp only [hs] at h
      injection h with h
      subst h
      have hlook : List.lookup "officerDateOfBirth"
          [("officerID", jsIndexStr (jsSplit self '/') 2),
           ("officerName", jsOfOpt individual.title),
           ("officerDateOfBirth", officerDateOfBirthVal individual),
           ("officerAddress", jsOfOpt individual.address_snippet)] =
          some (officerDateOfBirthVal individual) := rfl
      refine ⟨rfl, ?_⟩
      by_cases hj : String.intercalate "-"
          ((([individual.date_of_birth.bind DateOfBirth.year,
              individual.date_of_birth.bind DateOfBirth.month,
              individual.date_of_birth.bind DateOfBirth.day].filterMap id).filter
            (fun n => n != 0)).map toString) = ""
      · left
        rw [hlook]
        simp [officerDateOfBirthVal, hj]
      · right
        rw [hlook]
        simp [officerDateOfBirthVal, hj]

/-- C3 counterexample: a candidate with no address snippet survives `parse`
and yields an output cell that is JS `undefined`, not `null`, so missing
source data does not always resolve to `null`. -/
theorem parse_undef_address_counterexample :
    parse plainParams (some noAddrResp) johnEntry =
      .ok (some [[("officerID", JsVal.str "ab"),
        ("officerName", JsVal.str "X Y"),
        ("officerDateOfBirth", JsVal.jsNull),
        ("officerAddress", JsVal.jsUndefined)]]) ∧
    JsVal.jsUndefined ≠ JsVal.jsNull :=
  ⟨rfl, by decide⟩

/-- C3 (amended): every OutputRow produced by `parse` has exactly the keys
declared in the module schema, in order, and its `officerDateOfBirth` cell
is never `undefined`: it is the truthy birth-date components joined with a
hyphen, or `null` when no component exists. The other cells copy the
candidate fields verbatim and are `undefined` when the source data is
unavailable. -/
theorem parse_rows_schema (p : Parameters) (response? : Option Response)
    (entry : Entry) (rows : List OutputRow)
    (h : parse p response? entry = .ok (some rows)) :
    ∀ row ∈ rows, row.map Prod.fst = details.columns ∧
      (row.lookup "officerDateOfBirth" = some JsVal.jsNull ∨
        ∃ s, row.lookup "officerDateOfBirth" = some (JsVal.str s)) := by
  intro row hrow
  cases response? with
  | none =>
    rw [parse] at h
    injection h with h
    exact Option.noConfusion h
  | some response =>
    rw [parse] at h
    cases hfe : filterE (byNonMiddleNameMatch p entry)
        ((response.data.items.filter (byDateOfBirth p entry)).filter
          (byPreciseMatch p entry)) with
    | error e => rw [hfe] at h; exact Except.noConfusion h
    | ok filtered =>
      simp only [hfe] at h
      cases hme : mapE mapIndividual filtered with
      | error e => simp only [hme] at h; exact Except.noConfusion h
      | ok rows0 =>
        simp only [hme] at h
        injection h with h
        injection h with h
        subst h
        obtain ⟨x, hx⟩ := mapE_ok_mem mapIndividual filtered rows0 hme row hrow
        exact mapIndividual_row x row hx

/-- Witness for C3 (amended) on the end-to-end example row. -/
theorem parse_rows_schema_witness :
    johnRow.map Prod.fst = details.columns ∧
      (johnRow.lookup "officerDateOfBirth" = some JsVal.jsNull ∨
        ∃ s, johnRow.lookup "officerDateOfBirth" = some (JsVal.str s)) :=
  parse_rows_schema plainParams (some johnResp) johnEntry [johnRow] rfl johnRow
    (by simp)

/-- C4: when the Entry value under the configured individual-name column is
absent or blank, `run` yields no output rows and emits exactly one
error-importance diagnostic citing the line number, provided the injected
requestor maps an undefined query to an undefined response. -/
theorem run_missing_name (p : Parameters) (apiKeys : List (Option String))
    (request : Option Query → Option Response) (entry : Entry) (rot : Nat)
    (hreq : request none = none)
    (hname : entry.get p.individualNameField = none ∨
      entry.get p.individualNameField = some "") :
    run p apiKeys request entry rot =
      ([{ message := "No individual name found on line " ++ toString entry.line,
          importance := "error" }], .ok none, rot) := by
  have hloc : locate p apiKeys entry rot =
      (none, [{ message := "No individual name found on line " ++
          toString entry.line, importance := "error" }], rot) := by
    rcases hname with h | h <;> simp [locate, h]
  simp [run, hloc, hreq, paginate]

/-- Witness for C4 at a blank-name Entry with the stub requestor. -/
theorem run_missing_name_witness :
    run plainParams [some "k"] (stubRequest johnBody) blankEntry 0 =
      ([{ message := "No individual name found on line " ++
          toString blankEntry.line, importance := "error" }], .ok none, 0) :=
  run_missing_name plainParams [some "k"] (stubRequest johnBody) blankEntry 0
    rfl (Or.inr rfl)

theorem range'_take : ∀ (n s k : Nat),
    (List.range' s n).take k = List.range' s (min n k) := by
  intro n
  induction n with
  | zero => intro s k; simp
  | succ n ih =>
    intro s k
    cases k with
    | zero => simp
    | succ k =>
      rw [List.range'_succ, List.take_succ_cons, ih, Nat.succ_min_succ,
        List.range'_succ]

theorem range_drop_one (n : Nat) :
    (List.range n).drop 1 = List.range' 1 (n - 1) := by
  cases n with
  | zero => rfl
  | succ n =>
    rw [List.range_eq_range', List.range'_succ]
    simp

theorem paginatePages_pageNums (apiKeys : List (Option String))
    (request : Option Query → Option Response) (response : Response)
    (hecho : ∀ q : Query, ∃ resp : Response, request (some q) = some resp ∧
      resp.passthrough = q.passthrough) :
    ∀ (pages : List Nat) (rot : Nat),
      (paginatePages apiKeys request response pages rot).1.map
          (fun o => o.map (fun resp => resp.passthrough.page)) =
        pages.map (fun page => some (page + 1)) := by
  intro pages
  induction pages with
  | nil => intro rot; rfl
  | cons page rest ih =>
    intro rot
    obtain ⟨resp, hr, hp⟩ :=
      hecho (mkPageQuery response page (apiKeysRotated apiKeys rot).1)
    simp only [paginatePages, List.map_cons]
    rw [hr]
    simp [hp, mkPageQuery, ih]

/-- C2: provided the requestor echoes each query's passthrough onto its
response, `paginate` of a first response with more than 100 total results
returns the original response as the head, followed by responses whose
passthrough pages are exactly 2 through `min(ceil(total/100), 10)` in
ascending order; with at most 100 total results it returns only the
original response; and an undefined input returns undefined. -/
theorem paginate_characterisation (apiKeys : List (Option String))
    (request : Option Query → Option Response) (r : Response) (rot : Nat)
    (hecho : ∀ q : Query, ∃ resp : Response, request (some q) = some resp ∧
      resp.passthrough = q.passthrough) :
    (r.data.total_results > 100 →
      ∃ (tail : List (Option Response)) (rot' : Nat),
        paginate apiKeys request (some r) rot = (some (some r :: tail), rot') ∧
        tail.map (fun o => o.map (fun resp => resp.passthrough.page)) =
          (List.range' 2
            (min (jsCeilDiv100 r.data.total_results) 10 - 1)).map some) ∧
    (r.data.total_results ≤ 100 →
      paginate apiKeys request (some r) rot = (some [some r], rot)) ∧
    paginate apiKeys request none rot = (none, rot) := by
  refine ⟨?_, ?_, rfl⟩
  · intro h
    have hpag : paginate apiKeys request (some r) rot =
        (some (some r :: (paginatePages apiKeys request r
            (((List.range (jsCeilDiv100 r.data.total_results)).drop 1).take 9)
            rot).1),
         (paginatePages apiKeys request r
            (((List.range (jsCeilDiv100 r.data.total_results)).drop 1).take 9)
            rot).2) := by
      simp [paginate, h]
    refine ⟨_, _, hpag, ?_⟩
    rw [paginatePages_pageNums apiKeys request r hecho]
    rw [range_drop_one, range'_take]
    have hmin : min (jsCeilDiv100 r.data.total_results - 1) 9 =
        min (jsCeilDiv100 r.data.total_results) 10 - 1 := by omega
    rw [hmin]
    have hfun : (fun page => some (page + 1) : Nat → Option Nat) =
        (fun x => some x) ∘ (fun x => 1 + x) :=
      funext (fun p => by simp [Nat.add_comm])
    rw [hfun, ← List.map_map, List.map_add_range']
  · intro h
    have hnot : ¬ (r.data.total_results > 100) := by omega
    simp [paginate, hnot]

/-- Witness for C2 at a 250-result first response with the echoing stub. -/
theorem paginate_characterisation_witness :
    ∃ (tail : List (Option Response)) (rot' : Nat),
      paginate [some "k"] (stubRequest johnBody) (some resp250) 0 =
        (some (some resp250 :: tail), rot') ∧
      tail.map (fun o => o.map (fun resp => resp.passthrough.page)) =
        (List.range' 2
          (min (jsCeilDiv100 resp250.data.total_results) 10 - 1)).map some :=
  (paginate_characterisation [some "k"] (stubRequest johnBody) resp250 0
    (fun q => ⟨_, rfl, rfl⟩)).1 (by decide)

end Reconcile
